import Mathlib

/- Shallow embedding of the flux-footprint / hyperspectral-imagery matching
pipeline implemented in fmch/hsicos.py. Floats are modelled as rationals,
pandas frames as lists of records, raised exceptions as Except.error. -/

namespace Hsicos

/-! ## Temporal matcher and wavelength lookup (hsicos.py lines 249-270) -/

/-- Python builtin `min(items, key=k)` keeps the current best candidate and
replaces it only when a strictly smaller key appears, so the first minimum
in input order wins. `pickMin` is one comparison step of that scan. -/
def pickMin {α : Type} (key : α → ℚ) (b y : α) : α :=
  if key y < key b then y else b

/-- Python builtin `min(items, key=k)` over a list; `none` on the empty list
(where CPython raises ValueError). -/
def pyMin {α : Type} (key : α → ℚ) : List α → Option α
  | [] => none
  | x :: xs => some (xs.foldl (pickMin key) x)

/-- `nearest(items, target)` (hsicos.py line 249):
`min(items, key=lambda x: abs(x - target))`. -/
def nearest (items : List ℚ) (target : ℚ) : Option ℚ :=
  pyMin (fun x => |x - target|) items

/-- `_fnv(values, target)` (hsicos.py lines 252-270), list branch:
`min(range(len(values)), key=lambda i: abs(values[i] - target))`, i.e. the
first index whose wavelength is closest to the target. The out-of-range
warnings at lines 258-263 are log-only and do not change the result. -/
def fnv (values : List ℚ) (target : ℚ) : Option Nat :=
  pyMin (fun i => |values.getD i 0 - target|) (List.range values.length)

/-- Python slice `l[a:b]`. -/
def pyslice {α : Type} (l : List α) (a b : Nat) : List α :=
  (l.take b).drop a

/-! ## Spectral window (lines 1771-1777, 1809-1811, 1851) -/

/-- Lower/upper wavelength bounds chosen in `_crop_hsi_2_geoms`
(lines 1771-1777): `nm_min = 400` always; `nm_max` by the spectral-range
code; an unknown code leaves `nm_max` unbound (modelled as `none`). -/
def srBounds (sr : String) : Option (ℚ × ℚ) :=
  if sr = "vis" then some (400, 700)
  else if sr = "vnir" then some (400, 1000)
  else if sr = "vswir" then some (400, 2500)
  else none

/-- Band indices kept by `_crop_hsi_2_geoms`:
`wl_min = _fnv(wlss[0], nm_min)` and `wl_max = _fnv(wlss[0], nm_max) + 1`
(lines 1809-1810), then the cube is sliced `[:, :, wl_min:wl_max]`
(line 1851). -/
def retainedBandIdx (wls : List ℚ) (nmMin nmMax : ℚ) : List Nat :=
  match fnv wls nmMin, fnv wls nmMax with
  | some a, some b => pyslice (List.range wls.length) a (b + 1)
  | _, _ => []

/-! ## Footprint geometry builder (`_model_geoms`, lines 1614-1734) -/

/-- The six required micrometeorological fields of the half-hourly record
matched to one image acquisition. -/
structure MetRecord where
  WS : ℚ
  PBLH : ℚ
  MO_LENGTH : ℚ
  V_SIGMA : ℚ
  USTAR : ℚ
  WD : ℚ

/-- `ffp_params[i][['WS','PBLH','MO_LENGTH','V_SIGMA','USTAR','WD']].isin([-9999]).any()`
(lines 1677-1678). -/
def metMissing (p : MetRecord) : Bool :=
  decide (p.WS = -9999) || decide (p.PBLH = -9999) || decide (p.MO_LENGTH = -9999) ||
  decide (p.V_SIGMA = -9999) || decide (p.USTAR = -9999) || decide (p.WD = -9999)

/-- Arguments passed to the external Kljun footprint model `ffp.FFP`
(lines 1688-1691). The model itself is an out-of-scope collaborator, so a
footprint geometry is represented by the inputs it is built from. -/
structure FFPInputs where
  zm : ℚ
  umean : ℚ
  h : ℚ
  ol : ℚ
  sigmav : ℚ
  ustar : ℚ
  wind_dir : ℚ

/-- Output of `_model_geoms` for one (site, image) pair: the geometry slot
(`geoms[i]`), the image record's quality annotation (`clouds` column of
`img_db`), and the productivity/flux variables kept for that image. -/
structure GeomRecord where
  geometry : Option FFPInputs
  clouds : String
  flux : List ℚ

/-- One iteration of the per-image loop of `_model_geoms` in footprint mode
(lines 1666-1696): if any required micrometeorological field is -9999 or the
date has no flux record at all (`missd`), the geometry is `None`, the image
record's `clouds` annotation is set to `'icos_na'` and the flux variables
are replaced by zeros (line 1685); otherwise the footprint model is called
and the matched flux values are kept. -/
def modelGeomStep (zm : ℚ) (clouds0 : String) (p : MetRecord) (fluxvals : List ℚ)
    (nflux : Nat) (dateMissing : Bool) : GeomRecord :=
  if metMissing p || dateMissing then
    { geometry := none, clouds := "icos_na", flux := List.replicate nflux 0 }
  else
    { geometry := some { zm := zm, umean := p.WS, h := p.PBLH, ol := p.MO_LENGTH,
                         sigmav := p.V_SIGMA, ustar := p.USTAR, wind_dir := p.WD },
      clouds := clouds0, flux := fluxvals }

/-- Zonal-mode buffer radius by ecosystem class (`_model_geoms`,
lines 1645-1659). -/
def zonalRadius (ecosystem : String) : Except String ℚ :=
  if ecosystem ∈ (["MF", "DBF", "EBF", "ENF"] : List String) then .ok 80
  else if ecosystem ∈ (["SAV", "WSA"] : List String) then .ok 60
  else if ecosystem ∈ (["GRA", "OSH", "CSH"] : List String) then .ok 50
  else if ecosystem = "WET" then .ok 40
  else if ecosystem = "CRO" then .ok 30
  else .error ("Ecosystem " ++ ecosystem ++ " not supported Please update codebase.")

/-! ## Instrument and displacement heights (`_load_icos_subset`,
lines 1509-1588, and `_icos_height_aux`, lines 1333-1381) -/

/-- Consistency check and model-input computation at lines 1586-1588:
`if D > Z: raise ValueError(...)` else `ZM[i] = Z - D`. -/
def checkZD (Z D : ℚ) : Except String ℚ :=
  if D > Z then
    .error "Canopy height D > sensor height Z. Please check your ICOS ancillary metadata."
  else
    .ok (Z - D)

/-- Selection of the instrument-installation record for one image date
(lines 1568, 1581-1585). `records` are (installation date, GROUP_ID) pairs;
the series is sorted by date (`sort_index`), truncated to dates at or before
the image date (`truncate(after=idate)`), and the last remaining entry is
taken; if truncation leaves nothing (IndexError), the first entry of the
sorted series is used. -/
def selectInstallation (records : List (Nat × Nat)) (idate : Nat) : Option Nat :=
  match ((records.mergeSort (fun a b => decide (a.1 ≤ b.1))).filter
      (fun r => decide (r.1 ≤ idate))).getLast? with
  | some r => some r.2
  | none => ((records.mergeSort (fun a b => decide (a.1 ≤ b.1))).head?).map (fun r => r.2)

/-- One pivoted row of the ICOS ancillary canopy-height table
(GROUP_ID level): VARIABLE_GROUP, HEIGHTC_STATISTIC, HEIGHTC_SPP
(species tag, absent for whole-stand rows), HEIGHTC and its date. -/
structure AncRow where
  group : String
  statistic : String
  spp : Option String
  height : ℚ
  hdate : Nat

/-- How the displacement height D is obtained for a site: either a value
fixed once (wetland default, or the averaged per-species means of
lines 1547-1548), or a nearest-date lookup among the selected rows repeated
per image date (lines 1579-1580). -/
inductive DPolicy where
  | fixed (D : ℚ)
  | nearestDate (rows : List AncRow)

/-- Mean canopy height over the selected rows (lines 1547-1548). -/
def meanHeight (rows : List AncRow) : ℚ :=
  (rows.map (fun r => r.height)).sum / rows.length

/-- `_icos_height_aux` (lines 1333-1381): cascade over HEIGHTC statistics.
Presence of the long-format variable HEIGHTC_SPP is modelled as any row
carrying a species tag. Returns the selected rows and the D_avg flag; the
branch at lines 1348-1353 leaves `D_gid0` unbound when no whole-stand row
exists (an UnboundLocalError in the source, modelled as an error), and an
empty selection raises KeyError at lines 1375-1376. -/
def icosHeightAux (anc : List AncRow) : Except String (List AncRow × Bool) :=
  let w := anc.filter (fun r => decide (r.group = "GRP_HEIGHTC"))
  let has75 := w.any (fun r => decide (r.statistic = "75th Percentile"))
  let hasSpp := anc.any (fun r => r.spp.isSome)
  let hasMean := w.any (fun r => decide (r.statistic = "Mean") || decide (r.statistic = "Single observation"))
  let sel : Option (List AncRow × Bool) :=
    if has75 && !hasSpp then
      some (w.filter (fun r => decide (r.statistic = "75th Percentile")), false)
    else if has75 && hasSpp then
      if w.any (fun r => r.spp.isNone) then
        some (w.filter (fun r => decide (r.statistic = "75th Percentile") && r.spp.isNone), false)
      else none
    else if hasMean && !hasSpp then
      some (w.filter (fun r => decide (r.statistic = "Mean") || decide (r.statistic = "Single observation")), false)
    else if hasMean && hasSpp then
      if w.any (fun r => r.spp.isNone) then
        some (w.filter (fun r => (decide (r.statistic = "Mean") || decide (r.statistic = "Single observation")) && r.spp.isNone), false)
      else
        some (w.filter (fun r => decide (r.statistic = "Mean") && r.spp.isSome), true)
    else some ([], false)
  match sel with
  | none => .error "D_gid0 unbound: P75 rows exist but none is whole-stand"
  | some (rows, davg) =>
    if rows.length = 0 then
      .error "No usable mean or P75 values for D found in ICOS data."
    else .ok (rows, davg)

/-- Displacement-height resolution dispatch of `_load_icos_subset`
(lines 1512-1548): forest classes prefer whole-stand 75th-percentile
tree-height rows, then fall back to `_icos_height_aux`; crop, grass, shrub
and savanna classes go directly to `_icos_height_aux`; wetland uses the
fixed default D = 0.1 without consulting the ancillary data (lines
1535-1539); any other class leaves D unbound in the source (a NameError at
first use, modelled as an error). -/
def resolveD (igbp : String) (anc : List AncRow) : Except String DPolicy :=
  if igbp ∈ (["DBF", "ENF", "EBF", "MF"] : List String) then
    if anc.any (fun r => decide (r.group = "GRP_TREE_HEIGHT")) then
      .ok (.nearestDate ((anc.filter (fun r => decide (r.group = "GRP_TREE_HEIGHT"))).filter
        (fun r => decide (r.statistic = "75th Percentile") && r.spp.isNone)))
    else if anc.any (fun r => decide (r.group = "GRP_HEIGHTC")) then
      (icosHeightAux anc).map (fun rd => if rd.2 then .fixed (meanHeight rd.1) else .nearestDate rd.1)
    else
      .error "Ancillary file holds no data about vegetation height."
  else if igbp ∈ (["CRO", "GRA", "OSH", "CSH", "SAV", "WSA"] : List String) then
    (icosHeightAux anc).map (fun rd => if rd.2 then .fixed (meanHeight rd.1) else .nearestDate rd.1)
  else if igbp = "WET" then
    .ok (.fixed (1/10))
  else
    .error "D undefined for unsupported ecosystem class"

/-! ## Spectral cropper and aggregator (`_crop_hsi_2_geoms`,
lines 1737-1912) -/

/-- No-data and negative-reflectance replacement of lines 1842 and 1847:
pixels equal to the sensor sentinel or below zero become missing markers. -/
def cleanPixel (naVal : ℚ) (px : List ℚ) : List (Option ℚ) :=
  px.map (fun v => if v = naVal then none else if v < 0 then none else some v)

/-- `np.nanmean(geom_cube, axis=(1, 0))` (line 1861): per band, the mean of
the non-missing pixel values; all-missing bands stay missing. -/
def bandMeans (pixels : List (List (Option ℚ))) (nb : Nat) : List (Option ℚ) :=
  (List.range nb).map (fun j =>
    let vals := pixels.filterMap (fun px => px.getD j none)
    if vals.length = 0 then none else some (vals.sum / vals.length))

/-- Per-image body of `_crop_hsi_2_geoms` (lines 1818-1861) for one cropped
cube given as a list of pixels, each a list of per-band reflectances. If the
image was flagged `'icos_na'` or upwelling-radiance mode is on and the
matched PAR is the -9999 sentinel, the whole record is skipped and its
values stay missing (lines 1820-1824); otherwise sentinel and negative
pixels are masked, bands are sliced to `[wl_min:wl_max]`, in upwelling mode
every value is multiplied by PAR (lines 1857-1859), and per-band means are
taken. -/
def cropStep (clouds : String) (upw : Bool) (par : ℚ) (cube : List (List ℚ))
    (naVal : ℚ) (wlMin wlMax : Nat) : Option (List (Option ℚ)) :=
  if clouds = "icos_na" ∨ (upw = true ∧ par = -9999) then
    none
  else
    let masked := cube.map (cleanPixel naVal)
    let sliced := masked.map (fun px => pyslice px wlMin wlMax)
    let scaled := if upw = true then
        sliced.map (fun px => px.map (Option.map (fun v => v * par)))
      else sliced
    some (bandMeans scaled (wlMax - wlMin))

/-! ## Band-column naming and band-count check (line 1904 and
`crs_and_cropping` lines 642-644) -/

/-- Python `str.zfill(width)` for unsigned strings: left-pad with zeros. -/
def zfill (width : Nat) (s : String) : String :=
  if s.length < width then String.mk (List.replicate (width - s.length) '0') ++ s
  else s

/-- `sr_band_ix = ['b' + str(x).zfill(3) for x in range(1, nbands + 1)]`
(line 1904). -/
def srBandIx (nbands : Nat) : List String :=
  (List.range' 1 nbands).map (fun x => "b" ++ zfill 3 (Nat.repr x))

/-- `if len(set(blength)) > 1: raise ValueError(...)` (`crs_and_cropping`,
lines 642-644): the run is rejected when the contributing images do not all
share one band count. -/
def checkBandLengths (blength : List Nat) : Except String Unit :=
  if 1 < blength.dedup.length then
    .error "Wavelengths are not identical for all images."
  else .ok ()

/-! ## Spectral-range normalisation for upwelling mode (`hsi_geom_crop`
lines 1947-1951 and `load_cropped_db` lines 2078-2082) -/

/-- `if (upw is True) & (sr != 'vis'): sr = 'vis'` -- identical guard at the
top of both `hsi_geom_crop` and `load_cropped_db`; only a log message is
emitted, no exception. -/
def resolveSr (upw : Bool) (sr : String) : String :=
  if upw = true ∧ sr ≠ "vis" then "vis" else sr

/-- Radiometric-mode code: `'upw' if upw is True else 'ref'`. -/
def ptypeRad (upw : Bool) : String := if upw = true then "upw" else "ref"

/-- Geometry-mode code: `'zst' if zonal is True else 'ffp'`. -/
def ptypeMask (zonal : Bool) : String := if zonal = true then "zst" else "ffp"

/-- `'all_sites_{}_{}_{}_{}_{}.gpkg'.format(sensor, sr, mask, rad, aggr)`
(lines 2046-2048 and 2089). -/
def cropFname (sensor sr mask rad aggr : String) : String :=
  "all_sites_" ++ sensor ++ "_" ++ sr ++ "_" ++ mask ++ "_" ++ rad ++ "_" ++ aggr ++ ".gpkg"

/-- File name produced by `load_cropped_db` (and identically by
`hsi_geom_crop` with `save=True`) after the upwelling-mode guard. -/
def loadCroppedFname (sensor : String) (sr0 : String) (zonal upw : Bool)
    (aggr : String) : String :=
  cropFname sensor (resolveSr upw sr0) (ptypeMask zonal) (ptypeRad upw) aggr

/-! ## Properties of the Python `min` scan -/

theorem foldl_pickMin_mem {α : Type} (key : α → ℚ) (xs : List α) (b : α) :
    xs.foldl (pickMin key) b ∈ b :: xs := by
  induction xs generalizing b with
  | nil => simp
  | cons y ys ih =>
    simp only [List.foldl_cons]
    rcases List.mem_cons.mp (ih (pickMin key b y)) with h1 | h1
    · rw [h1]
      unfold pickMin
      split
      · exact List.mem_cons_of_mem _ (List.mem_cons_self _ _)
      · exact List.mem_cons_self _ _
    · exact List.mem_cons_of_mem _ (List.mem_cons_of_mem _ h1)

theorem foldl_pickMin_le_init {α : Type} (key : α → ℚ) (xs : List α) (b : α) :
    key (xs.foldl (pickMin key) b) ≤ key b := by
  induction xs generalizing b with
  | nil => simp
  | cons y ys ih =>
    simp only [List.foldl_cons]
    refine le_trans (ih (pickMin key b y)) ?_
    unfold pickMin
    split
    · exact le_of_lt (by assumption)
    · exact le_refl _

theorem foldl_pickMin_le_mem {α : Type} (key : α → ℚ) (xs : List α) (b : α) :
    ∀ x ∈ xs, key (xs.foldl (pickMin key) b) ≤ key x := by
  induction xs generalizing b with
  | nil => intro x hx; simp at hx
  | cons y ys ih =>
    intro x hx
    simp only [List.foldl_cons]
    rcases List.mem_cons.mp hx with h1 | h1
    · subst h1
      refine le_trans (foldl_pickMin_le_init key ys (pickMin key b x)) ?_
      unfold pickMin
      split
      · exact le_refl _
      · exact le_of_not_lt (by assumption)
    · exact ih (pickMin key b y) x h1

theorem foldl_pickMin_first {α : Type} (key : α → ℚ) (xs : List α) (b : α) :
    ∃ n : Nat, (b :: xs)[n]? = some (xs.foldl (pickMin key) b) ∧
      ∀ k, k < n → ∀ x, (b :: xs)[k]? = some x →
        key (xs.foldl (pickMin key) b) < key x := by
  induction xs generalizing b with
  | nil => exact ⟨0, by simp, by intro k hk; omega⟩
  | cons y ys ih =>
    simp only [List.foldl_cons]
    by_cases hk : key y < key b
    · have hpick : pickMin key b y = y := by unfold pickMin; rw [if_pos hk]
      rw [hpick]
      obtain ⟨n, hn, hfirst⟩ := ih y
      refine ⟨n + 1, by simpa using hn, ?_⟩
      intro k hk2 x hx
      cases k with
      | zero =>
        simp only [List.getElem?_cons_zero, Option.some.injEq] at hx
        subst hx
        exact lt_of_le_of_lt (foldl_pickMin_le_init key ys y) hk
      | succ j =>
        exact hfirst j (by omega) x (by simpa using hx)
    · have hpick : pickMin key b y = b := by unfold pickMin; rw [if_neg hk]
      rw [hpick]
      obtain ⟨n, hn, hfirst⟩ := ih b
      cases n with
      | zero =>
        simp only [List.getElem?_cons_zero, Option.some.injEq] at hn
        refine ⟨0, by rw [← hn]; simp, by intro k hk2; omega⟩
      | succ j =>
        have hn' : ys[j]? = some (ys.foldl (pickMin key) b) := by simpa using hn
        refine ⟨j + 2, by simpa using hn', ?_⟩
        intro k hk2 x hx
        cases k with
        | zero =>
          simp only [List.getElem?_cons_zero, Option.some.injEq] at hx
          subst hx
          exact hfirst 0 (by omega) b (by simp)
        | succ i =>
          cases i with
          | zero =>
            simp only [List.getElem?_cons_succ, List.getElem?_cons_zero,
              Option.some.injEq] at hx
            subst hx
            exact lt_of_lt_of_le (hfirst 0 (by omega) b (by simp)) (le_of_not_lt hk)
          | succ i2 =>
            have hx' : ys[i2]? = some x := by simpa using hx
            exact hfirst (i2 + 1) (by omega) x (by simpa using hx')

theorem pyMin_spec {α : Type} (key : α → ℚ) (l : List α) (hne : l ≠ []) :
    ∃ m, pyMin key l = some m ∧ m ∈ l ∧ (∀ x ∈ l, key m ≤ key x) ∧
      ∃ n : Nat, l[n]? = some m ∧
        ∀ k, k < n → ∀ x, l[k]? = some x → key m < key x := by
  match l with
  | [] => exact absurd rfl hne
  | b :: xs =>
    refine ⟨xs.foldl (pickMin key) b, rfl, foldl_pickMin_mem key xs b, ?_, ?_⟩
    · intro x hx
      rcases List.mem_cons.mp hx with h1 | h1
      · subst h1; exact foldl_pickMin_le_init key xs x
      · exact foldl_pickMin_le_mem key xs b x h1
    · exact foldl_pickMin_first key xs b

/-- Claim C2: for every non-empty list and target, `nearest` returns an
element of the list minimizing the absolute difference to the target, and
it is the first such element in input order (all earlier elements have a
strictly larger difference). -/
theorem C2_nearest_first_min (l : List ℚ) (t : ℚ) (hne : l ≠ []) :
    ∃ m, nearest l t = some m ∧ m ∈ l ∧ (∀ x ∈ l, |m - t| ≤ |x - t|) ∧
      ∃ n : Nat, l[n]? = some m ∧
        ∀ k, k < n → ∀ x, l[k]? = some x → |m - t| < |x - t| :=
  pyMin_spec (fun x => |x - t|) l hne

/-- Witness for C2 at the concrete input `[3, 1, 5]` with target 2. -/
theorem C2_nearest_first_min_witness :
    ∃ m, nearest [3, 1, 5] 2 = some m ∧ m ∈ ([3, 1, 5] : List ℚ) ∧
      (∀ x ∈ ([3, 1, 5] : List ℚ), |m - 2| ≤ |x - 2|) ∧
      ∃ n : Nat, ([3, 1, 5] : List ℚ)[n]? = some m ∧
        ∀ k, k < n → ∀ x, ([3, 1, 5] : List ℚ)[k]? = some x → |m - 2| < |x - 2| :=
  C2_nearest_first_min [3, 1, 5] 2 (by simp)

/-- Claim C1: whenever a required micrometeorological field carries the
-9999 sentinel or the date has no flux record at all, the footprint builder
emits a null geometry, sets the image record's quality annotation to the
flux-data-missing marker `'icos_na'`, and records all productivity
variables as zero -- never a partially populated footprint. -/
theorem C1_no_geometry_on_missing (zm : ℚ) (clouds0 : String) (p : MetRecord)
    (fluxvals : List ℚ) (nflux : Nat) (dateMissing : Bool)
    (h : p.WS = -9999 ∨ p.PBLH = -9999 ∨ p.MO_LENGTH = -9999 ∨ p.V_SIGMA = -9999 ∨
      p.USTAR = -9999 ∨ p.WD = -9999 ∨ dateMissing = true) :
    modelGeomStep zm clouds0 p fluxvals nflux dateMissing =
      { geometry := none, clouds := "icos_na", flux := List.replicate nflux 0 } := by
  rcases h with h | h | h | h | h | h | h <;>
    simp [modelGeomStep, metMissing, h]

/-- Witness for C1: a record whose wind speed is the sentinel. -/
theorem C1_no_geometry_on_missing_witness :
    modelGeomStep 10 "ok" ⟨-9999, 1, 2, 3, 4, 5⟩ [7, 8] 2 false =
      { geometry := none, clouds := "icos_na", flux := List.replicate 2 0 } :=
  C1_no_geometry_on_missing 10 "ok" ⟨-9999, 1, 2, 3, 4, 5⟩ [7, 8] 2 false (Or.inl rfl)

/-- Counterexample to claim C3 as stated: at Z = D = 5 the instrument height
is less than or equal to the displacement height, yet the check at
hsicos.py lines 1586-1588 raises nothing and proceeds with ZM = 0. -/
theorem C3_counterexample : (5 : ℚ) ≤ 5 ∧ checkZD 5 5 = .ok 0 := by
  refine ⟨le_refl 5, ?_⟩
  unfold checkZD
  rw [if_neg (lt_irrefl 5)]
  norm_num

/-- Claim C3 (amended): geometry construction raises the consistency error
exactly when the instrument height Z is STRICTLY below the displacement
height D; for D ≤ Z (including equality) it proceeds and returns Z - D
unchanged, never swapping or clamping the two values. -/
theorem C3_strict_consistency (Z D : ℚ) :
    (Z < D → checkZD Z D =
      .error "Canopy height D > sensor height Z. Please check your ICOS ancillary metadata.") ∧
    (D ≤ Z → checkZD Z D = .ok (Z - D)) := by
  constructor
  · intro h
    unfold checkZD
    rw [if_pos h]
  · intro h
    unfold checkZD
    rw [if_neg (not_lt.mpr h)]

/-- Witness for C3 (amended) at Z = 2, D = 5 and Z = 5, D = 2. -/
theorem C3_strict_consistency_witness :
    checkZD 2 5 =
      .error "Canopy height D > sensor height Z. Please check your ICOS ancillary metadata." ∧
    checkZD 5 2 = .ok 3 := by
  constructor
  · exact (C3_strict_consistency 2 5).1 (by norm_num)
  · rw [(C3_strict_consistency 5 2).2 (by norm_num)]
    norm_num

/-- Claim C4: in zonal mode the buffer radius is determined solely by
ecosystem class -- 80 m for forest classes, 60 m for savanna classes, 50 m
for grass/shrub classes, 40 m for wetland, 30 m for cropland -- and any
class outside this enumeration is rejected with the unsupported-ecosystem
error. -/
theorem C4_zonal_radius :
    (∀ e ∈ (["MF", "DBF", "EBF", "ENF"] : List String), zonalRadius e = .ok 80) ∧
    (∀ e ∈ (["SAV", "WSA"] : List String), zonalRadius e = .ok 60) ∧
    (∀ e ∈ (["GRA", "OSH", "CSH"] : List String), zonalRadius e = .ok 50) ∧
    zonalRadius "WET" = .ok 40 ∧
    zonalRadius "CRO" = .ok 30 ∧
    (∀ e, e ∉ (["MF", "DBF", "EBF", "ENF", "SAV", "WSA", "GRA", "OSH", "CSH",
        "WET", "CRO"] : List String) →
      zonalRadius e = .error ("Ecosystem " ++ e ++ " not supported Please update codebase.")) := by
  refine ⟨?_, ?_, ?_, by simp [zonalRadius], by simp [zonalRadius], ?_⟩
  · intro e he
    simp only [List.mem_cons, List.not_mem_nil, or_false] at he
    rcases he with rfl | rfl | rfl | rfl <;> simp [zonalRadius]
  · intro e he
    simp only [List.mem_cons, List.not_mem_nil, or_false] at he
    rcases he with rfl | rfl <;> simp [zonalRadius]
  · intro e he
    simp only [List.mem_cons, List.not_mem_nil, or_false] at he
    rcases he with rfl | rfl | rfl <;> simp [zonalRadius]
  · intro e he
    simp only [List.mem_cons, List.not_mem_nil, or_false, not_or] at he
    obtain ⟨h1, h2, h3, h4, h5, h6, h7, h8, h9, h10, h11⟩ := he
    simp [zonalRadius, h1, h2, h3, h4, h5, h6, h7, h8, h9, h10, h11]

/-- Witness for C4: cropland gets 30 m and an unknown class is rejected. -/
theorem C4_zonal_radius_witness :
    zonalRadius "CRO" = .ok 30 ∧
    zonalRadius "SNO" = .error ("Ecosystem " ++ "SNO" ++ " not supported Please update codebase.") :=
  ⟨C4_zonal_radius.2.2.2.2.1, C4_zonal_radius.2.2.2.2.2 "SNO" (by simp)⟩

/-! ## Sorted-list helpers for the installation-record selection -/

theorem getLast?_mem {α : Type} {l : List α} {r : α} (h : l.getLast? = some r) :
    r ∈ l := by
  induction l with
  | nil => simp at h
  | cons a t ih =>
    cases t with
    | nil =>
      simp at h
      subst h
      exact List.mem_cons_self _ _
    | cons b t2 =>
      rw [List.getLast?_cons_cons] at h
      exact List.mem_cons_of_mem _ (ih h)

theorem pairwise_getLast_ge {l : List (Nat × Nat)}
    (hs : l.Pairwise (fun a b => a.1 ≤ b.1)) {r : Nat × Nat}
    (hr : l.getLast? = some r) : ∀ x ∈ l, x.1 ≤ r.1 := by
  induction l with
  | nil => simp at hr
  | cons a t ih =>
    cases t with
    | nil =>
      simp at hr
      subst hr
      intro x hx
      simp at hx
      subst hx
      exact le_refl _
    | cons b t2 =>
      rw [List.getLast?_cons_cons] at hr
      have hs' := List.pairwise_cons.mp hs
      intro x hx
      rcases List.mem_cons.mp hx with rfl | hx2
      · exact hs'.1 r (getLast?_mem hr)
      · exact ih hs'.2 hr x hx2

theorem pairwise_head_le {l : List (Nat × Nat)}
    (hs : l.Pairwise (fun a b => a.1 ≤ b.1)) {r : Nat × Nat}
    (hr : l.head? = some r) : ∀ x ∈ l, r.1 ≤ x.1 := by
  cases l with
  | nil => simp at hr
  | cons a t =>
    simp at hr
    subst hr
    intro x hx
    rcases List.mem_cons.mp hx with rfl | hx2
    · exact le_refl _
    · exact (List.pairwise_cons.mp hs).1 x hx2

theorem mergeSort_date_sorted (records : List (Nat × Nat)) :
    (records.mergeSort (fun a b => decide (a.1 ≤ b.1))).Pairwise
      (fun a b => a.1 ≤ b.1) := by
  have h := @List.sorted_mergeSort (Nat × Nat) (fun a b => decide (a.1 ≤ b.1))
    (fun a b c h1 h2 => by
      simp only [decide_eq_true_eq] at h1 h2 ⊢
      omega)
    (fun a b => by
      simp only [Bool.or_eq_true, decide_eq_true_eq]
      omega)
    records
  exact h.imp (fun hab => by simpa using hab)

/-- Claim C5: for every image date, the installation record used is the last
one (in date order) dated at or before the image date; when no record is
dated at or before it, the earliest record is used instead. -/
theorem C5_last_valid_installation (records : List (Nat × Nat)) (idate : Nat)
    (hne : records ≠ []) :
    ∃ rec ∈ records, selectInstallation records idate = some rec.2 ∧
      ((∃ q ∈ records, q.1 ≤ idate) →
        rec.1 ≤ idate ∧ ∀ q ∈ records, q.1 ≤ idate → q.1 ≤ rec.1) ∧
      ((∀ q ∈ records, idate < q.1) → ∀ q ∈ records, rec.1 ≤ q.1) := by
  have hperm := List.mergeSort_perm records (fun a b : Nat × Nat => decide (a.1 ≤ b.1))
  have hmem := fun x => hperm.mem_iff (a := x)
  have hsorted := mergeSort_date_sorted records
  cases hfl : ((records.mergeSort (fun a b => decide (a.1 ≤ b.1))).filter
      (fun r => decide (r.1 ≤ idate))).getLast? with
  | some r =>
    have hrfil := getLast?_mem hfl
    have hrmem : r ∈ records := (hmem r).mp (List.mem_filter.mp hrfil).1
    have hrle : r.1 ≤ idate := by
      have := (List.mem_filter.mp hrfil).2
      simpa using this
    refine ⟨r, hrmem, ?_, ?_, ?_⟩
    · unfold selectInstallation
      rw [hfl]
    · intro _
      refine ⟨hrle, ?_⟩
      intro q hq hqle
      have hqfil : q ∈ (records.mergeSort (fun a b => decide (a.1 ≤ b.1))).filter
          (fun r => decide (r.1 ≤ idate)) :=
        List.mem_filter.mpr ⟨(hmem q).mpr hq, by simpa using hqle⟩
      have hfs : ((records.mergeSort (fun a b => decide (a.1 ≤ b.1))).filter
          (fun r => decide (r.1 ≤ idate))).Pairwise (fun a b => a.1 ≤ b.1) :=
        hsorted.sublist (List.filter_sublist _)
      exact pairwise_getLast_ge hfs hfl q hqfil
    · intro hall
      exact absurd (hall r hrmem) (by omega)
  | none =>
    have hempty : (records.mergeSort (fun a b => decide (a.1 ≤ b.1))).filter
        (fun r => decide (r.1 ≤ idate)) = [] := by
      simpa [List.getLast?_eq_none_iff] using hfl
    have hgt : ∀ x ∈ records, idate < x.1 := by
      intro x hx
      have := (List.filter_eq_nil_iff.mp hempty) x ((hmem x).mpr hx)
      simpa using this
    have hsne : records.mergeSort (fun a b : Nat × Nat => decide (a.1 ≤ b.1)) ≠ [] := by
      intro hcon
      have h2 := hperm.symm
      rw [hcon] at h2
      exact hne h2.eq_nil
    cases hhd : (records.mergeSort (fun a b : Nat × Nat => decide (a.1 ≤ b.1))).head? with
    | none =>
      exact absurd (List.head?_eq_none_iff.mp hhd) hsne
    | some a =>
      have hamem : a ∈ records := by
        refine (hmem a).mp ?_
        cases hcs : records.mergeSort (fun a b : Nat × Nat => decide (a.1 ≤ b.1)) with
        | nil => exact absurd hcs hsne
        | cons c t =>
          rw [hcs] at hhd
          simp at hhd
          subst hhd
          exact List.mem_cons_self _ _
      refine ⟨a, hamem, ?_, ?_, ?_⟩
      · unfold selectInstallation
        rw [hfl, hhd]
        rfl
      · intro hex
        obtain ⟨q, hq, hqle⟩ := hex
        exact absurd (hgt q hq) (by omega)
      · intro _
        intro q hq
        exact pairwise_head_le hsorted hhd q ((hmem q).mpr hq)

/-- Witness for C5 at a concrete record list with one date before and one
after the image date. -/
theorem C5_last_valid_installation_witness :
    ∃ rec ∈ ([(3, 11), (7, 22)] : List (Nat × Nat)),
      selectInstallation [(3, 11), (7, 22)] 5 = some rec.2 ∧
      ((∃ q ∈ ([(3, 11), (7, 22)] : List (Nat × Nat)), q.1 ≤ 5) →
        rec.1 ≤ 5 ∧ ∀ q ∈ ([(3, 11), (7, 22)] : List (Nat × Nat)), q.1 ≤ 5 → q.1 ≤ rec.1) ∧
      ((∀ q ∈ ([(3, 11), (7, 22)] : List (Nat × Nat)), 5 < q.1) →
        ∀ q ∈ ([(3, 11), (7, 22)] : List (Nat × Nat)), rec.1 ≤ q.1) :=
  C5_last_valid_installation [(3, 11), (7, 22)] 5 (by simp)

/-! ## Spectral-window membership -/

theorem mem_pyslice_range (n a b i : Nat) :
    i ∈ pyslice (List.range n) a b ↔ a ≤ i ∧ i < b ∧ i < n := by
  unfold pyslice
  rw [List.take_range, List.mem_iff_getElem?]
  constructor
  · rintro ⟨j, hj⟩
    rw [List.getElem?_drop] at hj
    by_cases h : a + j < min b n
    · rw [List.getElem?_range h] at hj
      have := Option.some_injective _ hj
      omega
    · rw [List.getElem?_eq_none] at hj
      · simp at hj
      · rw [List.length_range]
        omega
  · rintro ⟨h1, h2, h3⟩
    refine ⟨i - a, ?_⟩
    rw [List.getElem?_drop]
    have h : a + (i - a) < min b n := by omega
    rw [List.getElem?_range h]
    congr 1
    omega

/-- Claim C6: the retained band indices run from the index of the wavelength
nearest the lower bound through the index of the wavelength nearest the
upper bound, inclusive (both looked up with `_fnv`, first index on ties);
in particular a visible-range request (400-700 nm) on wavelengths
[400.2, 550.0, 699.8, 710.3] retains exactly indices 0, 1, 2. -/
theorem C6_spectral_window :
    (∀ (wls : List ℚ) (lo hi : ℚ), wls ≠ [] →
      ∃ a b, fnv wls lo = some a ∧ fnv wls hi = some b ∧
        a < wls.length ∧ b < wls.length ∧
        (∀ j, j < wls.length → |wls.getD a 0 - lo| ≤ |wls.getD j 0 - lo|) ∧
        (∀ j, j < wls.length → |wls.getD b 0 - hi| ≤ |wls.getD j 0 - hi|) ∧
        (∀ i, i ∈ retainedBandIdx wls lo hi ↔ a ≤ i ∧ i ≤ b)) ∧
    retainedBandIdx [400.2, 550.0, 699.8, 710.3] 400 700 = [0, 1, 2] := by
  constructor
  · intro wls lo hi hne
    have hlen0 : wls.length ≠ 0 := fun h => hne (List.length_eq_zero.mp h)
    have hr : List.range wls.length ≠ [] := by
      simpa [List.range_eq_nil] using hlen0
    obtain ⟨a, ha_eq, ha_mem, ha_min, -⟩ :=
      pyMin_spec (fun i => |wls.getD i 0 - lo|) _ hr
    obtain ⟨b, hb_eq, hb_mem, hb_min, -⟩ :=
      pyMin_spec (fun i => |wls.getD i 0 - hi|) _ hr
    have ha_lt : a < wls.length := List.mem_range.mp ha_mem
    have hb_lt : b < wls.length := List.mem_range.mp hb_mem
    have ha_eq2 : fnv wls lo = some a := ha_eq
    have hb_eq2 : fnv wls hi = some b := hb_eq
    refine ⟨a, b, ha_eq2, hb_eq2, ha_lt, hb_lt, ?_, ?_, ?_⟩
    · intro j hj
      exact ha_min j (List.mem_range.mpr hj)
    · intro j hj
      exact hb_min j (List.mem_range.mpr hj)
    · intro i
      have hred : retainedBandIdx wls lo hi = pyslice (List.range wls.length) a (b + 1) := by
        unfold retainedBandIdx
        rw [ha_eq2, hb_eq2]
      rw [hred, mem_pyslice_range]
      omega
  · have hrg : List.range ([400.2, 550.0, 699.8, 710.3] : List ℚ).length = [0, 1, 2, 3] := by
      decide
    have h400 : fnv [400.2, 550.0, 699.8, 710.3] 400 = some 0 := by
      unfold fnv
      rw [hrg]
      simp only [pyMin, List.foldl, pickMin, List.getD]
      norm_num [abs]
    have h700 : fnv [400.2, 550.0, 699.8, 710.3] 700 = some 2 := by
      unfold fnv
      rw [hrg]
      simp only [pyMin, List.foldl, pickMin, List.getD]
      norm_num [abs]
    unfold retainedBandIdx
    rw [h400, h700]
    decide

/-- Witness for C6 at the scenario wavelengths and the visible window. -/
theorem C6_spectral_window_witness :
    (∃ a b, fnv [400.2, 550.0, 699.8, 710.3] 400 = some a ∧
      fnv [400.2, 550.0, 699.8, 710.3] 700 = some b ∧
      a < ([400.2, 550.0, 699.8, 710.3] : List ℚ).length ∧
      b < ([400.2, 550.0, 699.8, 710.3] : List ℚ).length ∧
      (∀ j, j < ([400.2, 550.0, 699.8, 710.3] : List ℚ).length →
        |([400.2, 550.0, 699.8, 710.3] : List ℚ).getD a 0 - 400| ≤
          |([400.2, 550.0, 699.8, 710.3] : List ℚ).getD j 0 - 400|) ∧
      (∀ j, j < ([400.2, 550.0, 699.8, 710.3] : List ℚ).length →
        |([400.2, 550.0, 699.8, 710.3] : List ℚ).getD b 0 - 700| ≤
          |([400.2, 550.0, 699.8, 710.3] : List ℚ).getD j 0 - 700|) ∧
      (∀ i, i ∈ retainedBandIdx [400.2, 550.0, 699.8, 710.3] 400 700 ↔ a ≤ i ∧ i ≤ b)) ∧
    retainedBandIdx [400.2, 550.0, 699.8, 710.3] 400 700 = [0, 1, 2] :=
  ⟨C6_spectral_window.1 [400.2, 550.0, 699.8, 710.3] 400 700 (by simp),
    C6_spectral_window.2⟩

/-- Claim C7: in upwelling-radiance mode a record whose matched PAR value is
the -9999 sentinel is skipped: cropping and per-band multiplication do not
run and the record's band values stay missing, so reflectance is never
multiplied by the sentinel. -/
theorem C7_par_sentinel_skips (clouds : String) (par : ℚ) (cube : List (List ℚ))
    (naVal : ℚ) (wlMin wlMax : Nat) (h : par = -9999) :
    cropStep clouds true par cube naVal wlMin wlMax = none := by
  unfold cropStep
  rw [if_pos (Or.inr ⟨rfl, h⟩)]

/-- Witness for C7: PAR equal to the sentinel on a small concrete cube. -/
theorem C7_par_sentinel_skips_witness :
    cropStep "ok" true (-9999) [[1, 2], [3, 4]] (-999) 0 2 = none :=
  C7_par_sentinel_skips "ok" (-9999) [[1, 2], [3, 4]] (-999) 0 2 rfl

/-- Claim C8: a wetland site with no canopy-height ancillary record gets the
fixed default displacement height 0.1 m and no error is raised (the WET
branch never consults the ancillary table). -/
theorem C8_wetland_default (anc : List AncRow)
    (h : ∀ r ∈ anc, r.group ≠ "GRP_TREE_HEIGHT" ∧ r.group ≠ "GRP_HEIGHTC") :
    resolveD "WET" anc = .ok (.fixed (1/10)) := by
  simp [resolveD]

/-- Witness for C8: an empty ancillary table. -/
theorem C8_wetland_default_witness :
    resolveD "WET" [] = .ok (.fixed (1/10)) :=
  C8_wetland_default [] (by simp)

/-- Claim C9: appended band columns are named by a fixed-width ordinal index
('b' followed by a three-digit zero-padded number starting at 'b001'), with
exactly one column per retained wavelength and no dependence on the site;
and a run whose contributing images carry differing band counts is rejected
with an error. -/
theorem C9_band_columns :
    (∀ n : Nat, (srBandIx n).length = n) ∧
    (∀ n i : Nat, i < n → (srBandIx n)[i]? = some ("b" ++ zfill 3 (Nat.repr (i + 1)))) ∧
    (∀ n : Nat, 1 ≤ n → (srBandIx n).head? = some "b001") ∧
    srBandIx 3 = ["b001", "b002", "b003"] ∧
    (∀ bl : List Nat, (∃ x ∈ bl, ∃ y ∈ bl, x ≠ y) →
      checkBandLengths bl = .error "Wavelengths are not identical for all images.") := by
  have hget : ∀ n i : Nat, i < n →
      (srBandIx n)[i]? = some ("b" ++ zfill 3 (Nat.repr (i + 1))) := by
    intro n i hi
    simp [srBandIx, List.getElem?_range', hi, Nat.one_mul, Nat.add_comm 1 i]
  refine ⟨?_, hget, ?_, ?_, ?_⟩
  · intro n
    simp [srBandIx]
  · intro n hn
    rw [List.head?_eq_getElem?, hget n 0 (by omega)]
    rfl
  · decide
  · intro bl ⟨x, hx, y, hy, hxy⟩
    have hx2 : x ∈ bl.dedup := List.mem_dedup.mpr hx
    have hy2 : y ∈ bl.dedup := List.mem_dedup.mpr hy
    have h2 : 1 < bl.dedup.length := by
      rcases hdd : bl.dedup with - | ⟨a, - | ⟨b, t⟩⟩
      · rw [hdd] at hx2
        simp at hx2
      · rw [hdd] at hx2 hy2
        simp at hx2 hy2
        exact absurd (hx2.trans hy2.symm) hxy
      · simp only [List.length_cons]
        omega
    unfold checkBandLengths
    rw [if_pos h2]

/-- Witness for C9 at three bands and the two band counts 235 and 63. -/
theorem C9_band_columns_witness :
    (srBandIx 3).length = 3 ∧
    (srBandIx 3)[1]? = some ("b" ++ zfill 3 (Nat.repr 2)) ∧
    (srBandIx 3).head? = some "b001" ∧
    srBandIx 3 = ["b001", "b002", "b003"] ∧
    checkBandLengths [235, 63] = .error "Wavelengths are not identical for all images." :=
  ⟨C9_band_columns.1 3, C9_band_columns.2.1 3 1 (by omega),
    C9_band_columns.2.2.1 3 (by omega), C9_band_columns.2.2.2.1,
    C9_band_columns.2.2.2.2 [235, 63] ⟨235, by simp, 63, by simp, by omega⟩⟩

/-- Claim C10: with upwelling-radiance mode on, both the crop entry point
and the reload function silently reset any non-'vis' spectral range to
'vis' (no exception), so the computation runs over the 400-700 nm window
and the output file name encodes 'vis'. -/
theorem C10_upw_forces_vis (sr : String) :
    resolveSr true sr = "vis" ∧
    srBounds (resolveSr true sr) = some (400, 700) ∧
    (∀ sensor aggr : String, ∀ zonal : Bool,
      loadCroppedFname sensor sr zonal true aggr =
        cropFname sensor "vis" (ptypeMask zonal) "upw" aggr) := by
  have h1 : resolveSr true sr = "vis" := by
    by_cases h : sr = "vis" <;> simp [resolveSr, h]
  refine ⟨h1, ?_, ?_⟩
  · rw [h1]
    simp [srBounds]
  · intro sensor aggr zonal
    unfold loadCroppedFname ptypeRad
    rw [h1]
    rfl

end Hsicos
